import Mathlib

/-!
Verification of the memecoin-lending protocol (Solana/Anchor program) against its
natural-language specification.

This file shallowly embeds the relevant Rust source
(programs/memecoin-lending/src/utils.rs, instructions/liquidate.rs,
instructions/staking/epoch_helpers.rs, instructions/staking/claim_rewards.rs,
instructions/staking/distribute_rewards.rs) into Lean:
unsigned machine integers (u16/u64/u128) become Nat with explicit bound checks
mirroring the source's checked arithmetic (overflow checks compare against
2^64 - 1 and 2^128 - 1); i64 timestamps become Int; fallible Rust functions
returning anchor Result become Except LendingError; raw account byte slices
become List Nat (one Nat per byte, < 256); Pubkey values (only ever compared
for equality or sliced out of account data) become their 32-byte List Nat
representation.
-/

/-- Machine-integer bounds used by the source's checked arithmetic. -/
def U64_MAX : Nat := 2 ^ 64 - 1

/-- Upper bound of u128, the widening type used for intermediate products. -/
def U128_MAX : Nat := 2 ^ 128 - 1

/-- Error codes from src/error.rs that the embedded fragments can surface.
FuelExhausted is not a source error: it marks non-termination of the Rust
while-loop in maybe_advance_epoch, reachable only when epoch_duration <= 0. -/
inductive LendingError where
  | MathOverflow
  | MathUnderflow
  | DivisionByZero
  | InvalidPriceFeed
  | PoolTypeMismatch
  | ZeroPrice
  | LoanNotLiquidatable
  | SlippageTooHigh
  | SlippageExceeded
  | NoRewardsToClaim
  | InsufficientRewardBalance
  | NoEligibleStakers
  | InvalidAccountPairs
  | FuelExhausted
  deriving DecidableEq, Repr

/-- BPS_DIVISOR from state.rs: basis-point divisor (10000 = 100%). -/
def BPS_DIVISOR : Nat := 10000

/-- REWARD_PRECISION from state.rs: fixed-point scale of the reward accumulator. -/
def REWARD_PRECISION : Nat := 1000000000000

/-- PRICE_SCALE from utils.rs (also redeclared locally in calculate_loan_amount):
its value in the source is 10^6 even though the header comment calls it 10^9. -/
def PRICE_SCALE : Nat := 1000000

/-- MIN_LOAN_DURATION from utils.rs: 12 hours in seconds. -/
def MIN_LOAN_DURATION : Nat := 12 * 60 * 60

/-- MAX_LOAN_DURATION from utils.rs: 7 days in seconds. -/
def MAX_LOAN_DURATION : Nat := 7 * 24 * 60 * 60

/-- BASE_DURATION_SECONDS from utils.rs: 48 hours, the duration with no LTV scaling. -/
def BASE_DURATION_SECONDS : Nat := 48 * 60 * 60

/-- MAX_LTV_BONUS_BPS from utils.rs. -/
def MAX_LTV_BONUS_BPS : Nat := 2500

/-- MAX_LTV_PENALTY_BPS from utils.rs. -/
def MAX_LTV_PENALTY_BPS : Nat := 2500

/-- MAX_EFFECTIVE_LIQUIDATION_LTV_BPS from utils.rs: 90% cap. -/
def MAX_EFFECTIVE_LIQUIDATION_LTV_BPS : Nat := 9000

/-- MAX_LIQUIDATION_SLIPPAGE_BPS from utils.rs: 5% bound. -/
def MAX_LIQUIDATION_SLIPPAGE_BPS : Nat := 500

/-- RAYDIUM pool-layout offsets from utils.rs. -/
def RAYDIUM_TOKEN_A_AMOUNT_OFFSET : Nat := 224

def RAYDIUM_TOKEN_B_AMOUNT_OFFSET : Nat := 232

def RAYDIUM_TOKEN_A_MINT_OFFSET : Nat := 400

def RAYDIUM_TOKEN_B_MINT_OFFSET : Nat := 432

def RAYDIUM_MIN_DATA_LEN : Nat := 464

/-- PumpFun bonding-curve layout offsets from utils.rs. -/
def PUMPFUN_VIRTUAL_TOKEN_OFFSET : Nat := 8

def PUMPFUN_VIRTUAL_SOL_OFFSET : Nat := 16

def PUMPFUN_MIN_DATA_LEN : Nat := 24

/-- SafeMath::add (utils.rs): u64 checked_add. -/
def SafeMath.add (a b : Nat) : Except LendingError Nat :=
  if a + b > U64_MAX then Except.error LendingError.MathOverflow
  else Except.ok (a + b)

/-- SafeMath::sub (utils.rs): u64 checked_sub. -/
def SafeMath.sub (a b : Nat) : Except LendingError Nat :=
  if a < b then Except.error LendingError.MathUnderflow
  else Except.ok (a - b)

/-- SafeMath::mul (utils.rs): product at u128 width, then narrowed back to u64.
For u64 inputs the u128 product cannot overflow, so only the u64 check remains
(both failure sites return MathOverflow). -/
def SafeMath.mul (a b : Nat) : Except LendingError Nat :=
  if a * b > U64_MAX then Except.error LendingError.MathOverflow
  else Except.ok (a * b)

/-- SafeMath::div (utils.rs). -/
def SafeMath.div (a b : Nat) : Except LendingError Nat :=
  if b = 0 then Except.error LendingError.DivisionByZero
  else Except.ok (a / b)

/-- SafeMath::mul_div (utils.rs): a*b/c with a u128 intermediate product and a
u64 narrowing check. -/
def SafeMath.mul_div (a b c : Nat) : Except LendingError Nat :=
  if c = 0 then Except.error LendingError.DivisionByZero
  else if a * b > U128_MAX then Except.error LendingError.MathOverflow
  else if a * b / c > U64_MAX then Except.error LendingError.MathOverflow
  else Except.ok (a * b / c)

/-- SafeMath::mul_div_u128 (utils.rs): checked u128 multiply then divide. -/
def SafeMath.mul_div_u128 (a b c : Nat) : Except LendingError Nat :=
  if c = 0 then Except.error LendingError.DivisionByZero
  else if a * b > U128_MAX then Except.error LendingError.MathOverflow
  else Except.ok (a * b / c)

/-- SafeMath::add_u128 (utils.rs): u128 checked_add. -/
def SafeMath.add_u128 (a b : Nat) : Except LendingError Nat :=
  if a + b > U128_MAX then Except.error LendingError.MathOverflow
  else Except.ok (a + b)

/-- LoanCalculator::calculate_loan_amount (utils.rs lines 198-224).
The source computes
  collateral * price * ltv_bps * 1000 / PRICE_SCALE / BPS_DIVISOR
with every product checked at u128 width and a final u64 narrowing check.
Note the extra *1000 factor, absent from the function's own comment
(the comment states (collateral * price * ltv_bps) / (PRICE_SCALE * BPS_DIVISOR)),
and the local PRICE_SCALE of 10^6 despite the utils.rs header calling it 10^9. -/
def LoanCalculator.calculate_loan_amount (collateral_amount token_price ltv_bps : Nat) :
    Except LendingError Nat :=
  if collateral_amount * token_price > U128_MAX then Except.error LendingError.MathOverflow
  else if collateral_amount * token_price * ltv_bps > U128_MAX then
    Except.error LendingError.MathOverflow
  else if collateral_amount * token_price * ltv_bps * 1000 > U128_MAX then
    Except.error LendingError.MathOverflow
  else
    let loan_amount := collateral_amount * token_price * ltv_bps * 1000 / PRICE_SCALE / BPS_DIVISOR
    if loan_amount > U64_MAX then Except.error LendingError.MathOverflow
    else Except.ok loan_amount

/-- LoanCalculator::calculate_total_owed (utils.rs). -/
def LoanCalculator.calculate_total_owed (principal protocol_fee_bps : Nat) :
    Except LendingError Nat := do
  let protocol_fee ← SafeMath.mul_div principal protocol_fee_bps BPS_DIVISOR
  SafeMath.add principal protocol_fee

/-- LoanCalculator::calculate_liquidation_price (utils.rs lines 237-253):
effective LTV is ltv_bps + liquidation_buffer_bps capped at 9000 bps, and the
result is sol_borrowed * 10000 / (collateral_amount * effective_ltv / 10000). -/
def LoanCalculator.calculate_liquidation_price
    (sol_borrowed collateral_amount ltv_bps liquidation_buffer_bps : Nat) :
    Except LendingError Nat := do
  let raw_effective_ltv ← SafeMath.add ltv_bps liquidation_buffer_bps
  let effective_ltv := min raw_effective_ltv MAX_EFFECTIVE_LIQUIDATION_LTV_BPS
  let denom ← SafeMath.mul_div collateral_amount effective_ltv BPS_DIVISOR
  SafeMath.mul_div sol_borrowed BPS_DIVISOR denom

/-- LoanCalculator::calculate_duration_adjusted_ltv (utils.rs lines 284-335):
clamp the duration to [MIN_LOAN_DURATION, MAX_LOAN_DURATION], apply a linear
bonus below the 48h base duration and a linear penalty above it, then clamp the
effective LTV to [1000, 9000] bps. -/
def LoanCalculator.calculate_duration_adjusted_ltv (base_ltv_bps duration_seconds : Nat) :
    Except LendingError Nat := do
  let duration := min (max duration_seconds MIN_LOAN_DURATION) MAX_LOAN_DURATION
  let effective_ltv ←
    if duration ≤ BASE_DURATION_SECONDS then do
      let duration_range := BASE_DURATION_SECONDS - MIN_LOAN_DURATION
      let duration_diff := BASE_DURATION_SECONDS - duration
      let ratio ← SafeMath.mul_div MAX_LTV_BONUS_BPS duration_diff duration_range
      let bonus ← SafeMath.mul_div base_ltv_bps ratio BPS_DIVISOR
      SafeMath.add base_ltv_bps bonus
    else do
      let duration_range := MAX_LOAN_DURATION - BASE_DURATION_SECONDS
      let duration_diff := duration - BASE_DURATION_SECONDS
      let ratio ← SafeMath.mul_div MAX_LTV_PENALTY_BPS duration_diff duration_range
      let penalty ← SafeMath.mul_div base_ltv_bps ratio BPS_DIVISOR
      SafeMath.sub base_ltv_bps penalty
  if effective_ltv > 9000 then Except.ok 9000
  else if effective_ltv < 1000 then Except.ok 1000
  else Except.ok effective_ltv

/-- A raw account byte slice: one Nat per byte (< 256 where it matters). -/
def extractBytes (data : List Nat) (off len : Nat) : List Nat :=
  (data.drop off).take len

/-- u64::from_le_bytes over an 8-byte little-endian slice. -/
def u64FromLeBytes (bs : List Nat) : Nat :=
  bs.foldr (fun b acc => b + 256 * acc) 0

/-- PoolType from state.rs. -/
inductive PoolType where
  | Raydium
  | Orca
  | Pumpfun
  | PumpSwap
  deriving DecidableEq, Repr

/-- PriceFeedUtils::read_raydium_price (utils.rs lines 343-396).
Checks, in source order: minimum data length; not-all-zero; both reserves
nonzero; one of the two mints is the SOL mint (else InvalidPriceFeed); the
other mint equals the expected collateral mint (else PoolTypeMismatch); then
price = sol_reserve * PRICE_SCALE / token_reserve with a u128 product check
and a u64 narrowing check.  This function has no zero-price check itself;
that check lives in read_price_from_pool. -/
def PriceFeedUtils.read_raydium_price (pool_data token_mint sol_mint : List Nat) :
    Except LendingError Nat :=
  if pool_data.length < RAYDIUM_MIN_DATA_LEN then Except.error LendingError.InvalidPriceFeed
  else if ¬ pool_data.any (fun b => b != 0) then Except.error LendingError.InvalidPriceFeed
  else
    let token_a_amount := u64FromLeBytes (extractBytes pool_data RAYDIUM_TOKEN_A_AMOUNT_OFFSET 8)
    let token_b_amount := u64FromLeBytes (extractBytes pool_data RAYDIUM_TOKEN_B_AMOUNT_OFFSET 8)
    if ¬ (token_a_amount > 0 ∧ token_b_amount > 0) then Except.error LendingError.InvalidPriceFeed
    else
      let token_a_mint := extractBytes pool_data RAYDIUM_TOKEN_A_MINT_OFFSET 32
      let token_b_mint := extractBytes pool_data RAYDIUM_TOKEN_B_MINT_OFFSET 32
      if token_a_mint = sol_mint then
        if token_b_mint ≠ token_mint then Except.error LendingError.PoolTypeMismatch
        else if token_a_amount * PRICE_SCALE > U128_MAX then
          Except.error LendingError.MathOverflow
        else if token_a_amount * PRICE_SCALE / token_b_amount > U64_MAX then
          Except.error LendingError.MathOverflow
        else Except.ok (token_a_amount * PRICE_SCALE / token_b_amount)
      else if token_b_mint = sol_mint then
        if token_a_mint ≠ token_mint then Except.error LendingError.PoolTypeMismatch
        else if token_b_amount * PRICE_SCALE > U128_MAX then
          Except.error LendingError.MathOverflow
        else if token_b_amount * PRICE_SCALE / token_a_amount > U64_MAX then
          Except.error LendingError.MathOverflow
        else Except.ok (token_b_amount * PRICE_SCALE / token_a_amount)
      else Except.error LendingError.InvalidPriceFeed

/-- PriceFeedUtils::read_pumpfun_price (utils.rs lines 399-430).
Checks, in source order: minimum data length; first 24 bytes not all zero;
both virtual reserves nonzero; price = virtual_sol * PRICE_SCALE /
virtual_token with a u128 product check, u64 narrowing check, and a final
ZeroPrice check. -/
def PriceFeedUtils.read_pumpfun_price (pool_data : List Nat) : Except LendingError Nat :=
  if pool_data.length < PUMPFUN_MIN_DATA_LEN then Except.error LendingError.InvalidPriceFeed
  else if ¬ (pool_data.take PUMPFUN_MIN_DATA_LEN).any (fun b => b != 0) then
    Except.error LendingError.InvalidPriceFeed
  else
    let virtual_sol := u64FromLeBytes (extractBytes pool_data PUMPFUN_VIRTUAL_SOL_OFFSET 8)
    let virtual_token := u64FromLeBytes (extractBytes pool_data PUMPFUN_VIRTUAL_TOKEN_OFFSET 8)
    if ¬ (virtual_sol > 0 ∧ virtual_token > 0) then Except.error LendingError.InvalidPriceFeed
    else if virtual_sol * PRICE_SCALE > U128_MAX then Except.error LendingError.MathOverflow
    else if virtual_sol * PRICE_SCALE / virtual_token > U64_MAX then
      Except.error LendingError.MathOverflow
    else if virtual_sol * PRICE_SCALE / virtual_token = 0 then
      Except.error LendingError.ZeroPrice
    else Except.ok (virtual_sol * PRICE_SCALE / virtual_token)

/-- The SOL (wrapped SOL) mint pubkey So11111111111111111111111111111111111111112,
as its 32 raw bytes, hardcoded inside read_price_from_pool in the source. -/
def SOL_MINT : List Nat :=
  [6, 155, 136, 87, 254, 171, 129, 132, 251, 104, 127, 99, 70, 24, 192, 53,
   218, 196, 57, 220, 26, 235, 59, 85, 152, 160, 240, 0, 0, 0, 0, 1]

/-- PriceFeedUtils::read_price_from_pool (utils.rs lines 478-495): dispatch on
pool type (Raydium/Orca use the AMM layout, Pumpfun/PumpSwap the bonding-curve
layout), then reject a zero price with ZeroPrice. -/
def PriceFeedUtils.read_price_from_pool (pool_data : List Nat) (pool_type : PoolType)
    (token_mint : List Nat) : Except LendingError Nat := do
  let price ←
    match pool_type with
    | PoolType.Raydium | PoolType.Orca =>
        PriceFeedUtils.read_raydium_price pool_data token_mint SOL_MINT
    | PoolType.Pumpfun | PoolType.PumpSwap =>
        PriceFeedUtils.read_pumpfun_price pool_data
  if price > 0 then Except.ok price
  else Except.error LendingError.ZeroPrice

/-- The Loan account fields used by the liquidation logic (state.rs). -/
structure Loan where
  collateral_amount : Nat
  sol_borrowed : Nat
  liquidation_price : Nat
  due_at : Int
  deriving DecidableEq, Repr

/-- LoanStatus from state.rs. -/
inductive LoanStatus where
  | Active
  | Repaid
  | LiquidatedTime
  | LiquidatedPrice
  deriving DecidableEq, Repr

/-- ValidationUtils::is_loan_liquidatable_by_time (utils.rs line 597). -/
def ValidationUtils.is_loan_liquidatable_by_time (loan : Loan) (current_time : Int) : Bool :=
  current_time > loan.due_at

/-- ValidationUtils::is_loan_liquidatable_by_price (utils.rs line 602). -/
def ValidationUtils.is_loan_liquidatable_by_price (loan : Loan) (current_price : Nat) : Bool :=
  current_price ≤ loan.liquidation_price

/-- The liquidatability gate of liquidate_handler (liquidate.rs lines 204-216):
require at least one of the time/price triggers, and record LiquidatedPrice
whenever the price trigger holds (price takes precedence over time). -/
def liquidate_trigger_check (loan : Loan) (now : Int) (current_price : Nat) :
    Except LendingError LoanStatus :=
  let liquidatable_by_time := ValidationUtils.is_loan_liquidatable_by_time loan now
  let liquidatable_by_price := ValidationUtils.is_loan_liquidatable_by_price loan current_price
  if liquidatable_by_time || liquidatable_by_price then
    Except.ok (if liquidatable_by_price then LoanStatus.LiquidatedPrice
               else LoanStatus.LiquidatedTime)
  else Except.error LendingError.LoanNotLiquidatable

/-- The pre-swap slippage gate of liquidate_handler (liquidate.rs lines 222-239):
expected_sol_value = collateral_amount * current_price / PRICE_SCALE,
min_acceptable_output = expected_sol_value * (BPS_DIVISOR -
MAX_LIQUIDATION_SLIPPAGE_BPS) / BPS_DIVISOR, and the caller-supplied
min_sol_output must be at least min_acceptable_output (else SlippageTooHigh).
Returns min_acceptable_output on success. -/
def liquidate_min_output_check (collateral_amount current_price min_sol_output : Nat) :
    Except LendingError Nat := do
  let expected_sol_value ← SafeMath.mul_div collateral_amount current_price PRICE_SCALE
  let min_acceptable_output ←
    SafeMath.mul_div expected_sol_value (BPS_DIVISOR - MAX_LIQUIDATION_SLIPPAGE_BPS) BPS_DIVISOR
  if min_sol_output ≥ min_acceptable_output then Except.ok min_acceptable_output
  else Except.error LendingError.SlippageTooHigh

/-- The post-swap proceeds gate of liquidate_handler (liquidate.rs lines 300-306):
sol_proceeds = vault balance after the swap minus before (checked_sub), and
the realized proceeds must be at least the caller-supplied min_sol_output
(else SlippageExceeded).  Returns sol_proceeds on success. -/
def liquidate_proceeds_check (sol_before sol_after min_sol_output : Nat) :
    Except LendingError Nat :=
  if sol_after < sol_before then Except.error LendingError.MathUnderflow
  else if sol_after - sol_before ≥ min_sol_output then Except.ok (sol_after - sol_before)
  else Except.error LendingError.SlippageExceeded

/-- The StakingPool fields read and written by epoch_helpers.rs (state.rs
lines 317-380): u64 counters as Nat, the u128 accumulator as Nat, i64 times
as Int. -/
structure StakingPool where
  current_epoch : Nat
  epoch_duration : Int
  epoch_start_time : Int
  total_staked : Nat
  current_epoch_eligible_stake : Nat
  reward_per_token_accumulated : Nat
  current_epoch_rewards : Nat
  total_epochs_completed : Nat
  deriving DecidableEq, Repr

/-- advance_single_epoch (epoch_helpers.rs lines 15-72).  If the ending epoch
had eligible stake and rewards, fold epoch_rewards * REWARD_PRECISION /
eligible_stake into the accumulator (checked u128 arithmetic); if it had
rewards but no eligible stake the rewards are deliberately left in place (roll
over); otherwise the counter is (re)set to zero.  Then bump the epoch number
and completed-epoch counter (checked u64), advance epoch_start_time by exactly
one epoch_duration (plain i64 addition in the source), set the new epoch's
eligible stake to total_staked, and zero the reward counter only when that new
eligible stake is positive. -/
def advance_single_epoch (pool : StakingPool) : Except LendingError StakingPool := do
  let pool1 ←
    if pool.current_epoch_eligible_stake > 0 ∧ pool.current_epoch_rewards > 0 then
      if pool.current_epoch_rewards * REWARD_PRECISION > U128_MAX then
        Except.error LendingError.MathOverflow
      else
        let reward_increment :=
          pool.current_epoch_rewards * REWARD_PRECISION / pool.current_epoch_eligible_stake
        if pool.reward_per_token_accumulated + reward_increment > U128_MAX then
          Except.error LendingError.MathOverflow
        else
          Except.ok { pool with reward_per_token_accumulated :=
            pool.reward_per_token_accumulated + reward_increment }
    else if pool.current_epoch_rewards > 0 then
      Except.ok pool
    else
      Except.ok { pool with current_epoch_rewards := 0 }
  if pool1.current_epoch + 1 > U64_MAX then Except.error LendingError.MathOverflow
  else if pool1.total_epochs_completed + 1 > U64_MAX then Except.error LendingError.MathOverflow
  else
    let pool2 := { pool1 with
      current_epoch := pool1.current_epoch + 1,
      epoch_start_time := pool1.epoch_start_time + pool1.epoch_duration,
      total_epochs_completed := pool1.total_epochs_completed + 1,
      current_epoch_eligible_stake := pool1.total_staked }
    if pool2.current_epoch_eligible_stake > 0 then
      Except.ok { pool2 with current_epoch_rewards := 0 }
    else
      Except.ok pool2

/-- maybe_advance_epoch (epoch_helpers.rs lines 7-12): loop advancing one epoch
at a time while current_time >= epoch_start_time + epoch_duration.  The Rust
while-loop never terminates when its guard holds and epoch_duration <= 0, so
the embedding carries explicit fuel; FuelExhausted marks that divergence and
is unreachable for any sufficient fuel when epoch_duration > 0. -/
def maybe_advance_epoch (fuel : Nat) (pool : StakingPool) (current_time : Int) :
    Except LendingError StakingPool :=
  if current_time ≥ pool.epoch_start_time + pool.epoch_duration then
    match fuel with
    | 0 => Except.error LendingError.FuelExhausted
    | fuel' + 1 => do
      let pool' ← advance_single_epoch pool
      maybe_advance_epoch fuel' pool' current_time
  else Except.ok pool

/-- k-fold composition of advance_single_epoch, used to state how many single
advances maybe_advance_epoch performs. -/
def advanceIter : Nat → StakingPool → Except LendingError StakingPool
  | 0, pool => Except.ok pool
  | k + 1, pool => do
    let pool' ← advance_single_epoch pool
    advanceIter k pool'

/-- The staking-pool fields read and written by claim_rewards.rs.  That file
implements a continuous-emission reward model whose pool fields
(reward_per_token_stored, last_update_time, emission rates, target balance)
are distinct from the epoch-accumulator fields of state.rs; they are embedded
here as their own structure. -/
structure EmissionPool where
  total_staked : Nat
  reward_per_token_stored : Nat
  last_update_time : Int
  base_emission_rate : Nat
  min_emission_rate : Nat
  max_emission_rate : Nat
  target_pool_balance : Nat
  total_rewards_distributed : Nat
  deriving DecidableEq, Repr

/-- The user-stake fields read and written by claim_rewards.rs. -/
structure EmissionUserStake where
  staked_amount : Nat
  pending_rewards : Nat
  reward_per_token_paid : Nat
  deriving DecidableEq, Repr

/-- calculate_emission_rate (claim_rewards.rs lines 111-124): scale the base
rate by vault_balance / target_balance (u128 saturating mul/div, then the
`as u64` truncation), clamped to [min_emission_rate, max_emission_rate].
Rust's clamp asserts min <= max; the if-chain below is its behavior on the
values the program stores. -/
def ClaimRewards.calculate_emission_rate (pool : EmissionPool) (reward_vault_balance : Nat) :
    Nat :=
  if pool.target_pool_balance = 0 then pool.base_emission_rate
  else
    let emission := pool.base_emission_rate * reward_vault_balance /
      pool.target_pool_balance % 2 ^ 64
    if emission < pool.min_emission_rate then pool.min_emission_rate
    else if emission > pool.max_emission_rate then pool.max_emission_rate
    else emission

/-- calculate_reward_per_token (claim_rewards.rs lines 81-109): with stake and
elapsed time, accrue emission_rate * time_elapsed rewards and fold
rewards * REWARD_PRECISION / total_staked into the stored per-token value.
time_elapsed is (current_time - last_update_time) as u64, a wrapping cast. -/
def ClaimRewards.calculate_reward_per_token (pool : EmissionPool)
    (reward_vault_balance : Nat) (current_time : Int) : Except LendingError Nat :=
  if pool.total_staked = 0 then Except.ok pool.reward_per_token_stored
  else
    let time_elapsed := ((current_time - pool.last_update_time) % (2 ^ 64 : Int)).toNat
    if time_elapsed = 0 then Except.ok pool.reward_per_token_stored
    else do
      let rewards_to_distribute ←
        SafeMath.mul (ClaimRewards.calculate_emission_rate pool reward_vault_balance)
          time_elapsed
      let reward_increment ←
        SafeMath.mul_div_u128 rewards_to_distribute REWARD_PRECISION pool.total_staked
      SafeMath.add_u128 pool.reward_per_token_stored reward_increment

/-- calculate_pending_rewards (claim_rewards.rs lines 126-138):
staked_amount * (current_reward_per_token - reward_per_token_paid) /
REWARD_PRECISION, with checked u128 sub/mul and the final `as u64`
truncation. -/
def ClaimRewards.calculate_pending_rewards (user_stake : EmissionUserStake)
    (current_reward_per_token : Nat) : Except LendingError Nat :=
  if current_reward_per_token < user_stake.reward_per_token_paid then
    Except.error LendingError.MathUnderflow
  else
    let reward_diff := current_reward_per_token - user_stake.reward_per_token_paid
    if user_stake.staked_amount * reward_diff > U128_MAX then
      Except.error LendingError.MathOverflow
    else Except.ok (user_stake.staked_amount * reward_diff / REWARD_PRECISION % 2 ^ 64)

/-- claim_rewards_handler (claim_rewards.rs lines 36-78): refresh the stored
reward-per-token, compute total_rewards = pending_rewards + newly accrued,
require total_rewards > 0 (else NoRewardsToClaim) and reward_vault_balance >=
total_rewards (else InsufficientRewardBalance — the handler does NOT clamp to
the vault balance), then zero the user's pending rewards, advance their
reward_per_token_paid snapshot, bump total_rewards_distributed, and pay out
the full total_rewards.  Returns the updated pool, updated user stake, and
the paid amount. -/
def claim_rewards_handler (pool : EmissionPool) (user_stake : EmissionUserStake)
    (reward_vault_balance : Nat) (now : Int) :
    Except LendingError (EmissionPool × EmissionUserStake × Nat) := do
  let current_reward_per_token ←
    ClaimRewards.calculate_reward_per_token pool reward_vault_balance now
  let pool1 := { pool with
    reward_per_token_stored := current_reward_per_token,
    last_update_time := now }
  let new_rewards ← ClaimRewards.calculate_pending_rewards user_stake current_reward_per_token
  let total_rewards ← SafeMath.add user_stake.pending_rewards new_rewards
  if total_rewards = 0 then Except.error LendingError.NoRewardsToClaim
  else if reward_vault_balance < total_rewards then
    Except.error LendingError.InsufficientRewardBalance
  else do
    let user1 := { user_stake with
      pending_rewards := 0,
      reward_per_token_paid := current_reward_per_token }
    let distributed ← SafeMath.add pool1.total_rewards_distributed total_rewards
    Except.ok ({ pool1 with total_rewards_distributed := distributed }, user1, total_rewards)

/-- The staking-pool fields read and written by distribute_rewards.rs (again a
revision-specific field set: last_epoch_rewards, last_epoch_eligible_stake and
last_epoch_distributed do not appear in state.rs). -/
structure DistPool where
  current_epoch : Nat
  last_epoch_rewards : Nat
  last_epoch_eligible_stake : Nat
  last_epoch_distributed : Nat
  total_rewards_distributed : Nat
  deriving DecidableEq, Repr

/-- The per-staker fields distribute_rewards.rs reads out of each supplied
user-stake account (at fixed byte offsets) and writes back in place. -/
structure StakeRecord where
  staked_amount : Nat
  stake_start_epoch : Nat
  last_rewarded_epoch : Nat
  total_rewards_received : Nat
  deriving DecidableEq, Repr

/-- The per-pair loop of distribute_rewards_handler (distribute_rewards.rs
lines 70-210), over the already-validated (record, wallet) pairs; the four
account-authenticity validations (owner program, discriminator, PDA
re-derivation, stored-owner match) concern Solana account plumbing and are
performed before the fields embedded in StakeRecord are trusted.  A record is
skipped (kept unchanged, nothing paid) when it has no stake, its
stake_start_epoch or last_rewarded_epoch is at or past the distributable
epoch, or its computed share is zero.  share = staked_amount * rewards_pool /
eligible_stake (checked u128 mul/div, then the `as u64` truncation).  If the
remaining vault balance cannot cover the share, the loop breaks, leaving the
remaining records untouched, without an error.  Otherwise the record's
last_rewarded_epoch is set to the distributable epoch and its lifetime total
bumped (checked) before the lamport transfer.  Returns the updated records,
the remaining vault balance, and the total distributed by this call. -/
def distribute_process (distributable_epoch rewards_pool eligible_stake : Nat) :
    Nat → List StakeRecord → Except LendingError (List StakeRecord × Nat × Nat)
  | vault, [] => Except.ok ([], vault, 0)
  | vault, r :: rest =>
    if r.staked_amount = 0 ∨ r.stake_start_epoch ≥ distributable_epoch
        ∨ r.last_rewarded_epoch ≥ distributable_epoch then
      (distribute_process distributable_epoch rewards_pool eligible_stake vault rest).map
        (fun x => (r :: x.1, x.2.1, x.2.2))
    else if r.staked_amount * rewards_pool > U128_MAX then
      Except.error LendingError.MathOverflow
    else if eligible_stake = 0 then Except.error LendingError.DivisionByZero
    else
      let share := r.staked_amount * rewards_pool / eligible_stake % 2 ^ 64
      if share = 0 then
        (distribute_process distributable_epoch rewards_pool eligible_stake vault rest).map
          (fun x => (r :: x.1, x.2.1, x.2.2))
      else if vault < share then
        Except.ok (r :: rest, vault, 0)
      else if r.total_rewards_received + share > U64_MAX then
        Except.error LendingError.MathOverflow
      else
        let r1 := { r with
          last_rewarded_epoch := distributable_epoch,
          total_rewards_received := r.total_rewards_received + share }
        (distribute_process distributable_epoch rewards_pool eligible_stake
            (vault - share) rest).map
          (fun x => (r1 :: x.1, x.2.1, x.2.2 + share))

/-- distribute_rewards_handler (distribute_rewards.rs lines 32-223): require
undistributed rewards and eligible stake for the last epoch, require a
nonempty pair list, compute the distributable epoch (current_epoch
saturating_sub 1) and rewards_pool = min(last_epoch_rewards, vault balance);
return Ok untouched when rewards_pool < 1000; otherwise run the pair loop and
fold its total into the pool counters (checked).  Returns the updated pool,
updated records, and remaining vault balance. -/
def distribute_rewards_handler (pool : DistPool) (vault_balance : Nat)
    (records : List StakeRecord) :
    Except LendingError (DistPool × List StakeRecord × Nat) :=
  if pool.last_epoch_rewards = 0 then Except.error LendingError.NoRewardsToClaim
  else if pool.last_epoch_eligible_stake = 0 then Except.error LendingError.NoEligibleStakers
  else if records = [] then Except.error LendingError.InvalidAccountPairs
  else
    let distributable_epoch := pool.current_epoch - 1
    let rewards_pool := min pool.last_epoch_rewards vault_balance
    if rewards_pool < 1000 then Except.ok (pool, records, vault_balance)
    else do
      let result ← distribute_process distributable_epoch rewards_pool
        pool.last_epoch_eligible_stake vault_balance records
      if pool.last_epoch_distributed + result.2.2 > U64_MAX then
        Except.error LendingError.MathOverflow
      else if pool.total_rewards_distributed + result.2.2 > U64_MAX then
        Except.error LendingError.MathOverflow
      else
        Except.ok ({ pool with
          last_epoch_distributed := pool.last_epoch_distributed + result.2.2,
          total_rewards_distributed := pool.total_rewards_distributed + result.2.2 },
          result.1, result.2.1)

/-- Reduction of monadic bind on a success value. -/
theorem except_ok_bind {α β ε : Type} (a : α) (g : α → Except ε β) :
    (Except.ok a : Except ε α) >>= g = g a := rfl

/-- Reduction of monadic bind on an error value. -/
theorem except_error_bind {α β ε : Type} (e : ε) (g : α → Except ε β) :
    (Except.error e : Except ε α) >>= g = Except.error e := rfl

/-- Reduction of Except.map on a success value. -/
theorem except_ok_map {α β ε : Type} (a : α) (g : α → β) :
    (Except.ok a : Except ε α).map g = Except.ok (g a) := rfl

/-- Reduction of Except.map on an error value. -/
theorem except_error_map {α β ε : Type} (e : ε) (g : α → β) :
    (Except.error e : Except ε α).map g = Except.error e := rfl



/-- C1: the spec claims that for collateral_amount = 1_000_000_000,
token_price = 2_000_000_000 and ltv_bps = 5000,
LoanCalculator::calculate_loan_amount returns exactly 1_000_000_000 lamports,
computing collateral * price * ltv_bps / (SCALE * 10000) with SCALE = 10^9.
The code instead returns 1_000_000_000_000_000 at this input: it multiplies by
an extra 1000 and divides by a PRICE_SCALE of 10^6, contradicting both its own
inline formula comment (which has no *1000 factor) and the utils.rs header
comment calling the scale 10^9.  This theorem evaluates the embedded code at
the spec's input. -/
theorem loan_amount_spec_input_value :
    LoanCalculator.calculate_loan_amount 1000000000 2000000000 5000 =
      Except.ok 1000000000000000 := by rfl

/-- C5: calculate_liquidation_price(500_000_000, 1_000_000_000, 5000, 4000)
returns exactly 5555, and with liquidation_buffer_bps = 6000 (sum 11000,
clamped to the 9000-bps cap) it returns the identical value. -/
theorem liquidation_price_concrete_scenario :
    LoanCalculator.calculate_liquidation_price 500000000 1000000000 5000 4000 =
      Except.ok 5555 ∧
    LoanCalculator.calculate_liquidation_price 500000000 1000000000 5000 6000 =
      Except.ok 5555 := by
  exact ⟨by rfl, by rfl⟩

/-- C2: is_loan_liquidatable_by_price is true exactly when the current price is
at or below the loan's liquidation_price (boundary inclusive); the liquidate
gate fails with LoanNotLiquidatable unless now > due_at or price ≤
liquidation_price, succeeds exactly when one of the triggers holds, and
records LiquidatedPrice whenever the price trigger holds (so when both
triggers hold the recorded status is LiquidatedPrice, not LiquidatedTime). -/
theorem liquidation_triggers_correct :
    (∀ (loan : Loan) (price : Nat),
        ValidationUtils.is_loan_liquidatable_by_price loan price = true ↔
          price ≤ loan.liquidation_price)
  ∧ (∀ (loan : Loan) (now : Int) (price : Nat),
        ¬ (now > loan.due_at ∨ price ≤ loan.liquidation_price) →
          liquidate_trigger_check loan now price =
            Except.error LendingError.LoanNotLiquidatable)
  ∧ (∀ (loan : Loan) (now : Int) (price : Nat),
        (liquidate_trigger_check loan now price).isOk ↔
          (now > loan.due_at ∨ price ≤ loan.liquidation_price))
  ∧ (∀ (loan : Loan) (now : Int) (price : Nat),
        price ≤ loan.liquidation_price →
          liquidate_trigger_check loan now price = Except.ok LoanStatus.LiquidatedPrice)
  ∧ (∀ (loan : Loan) (now : Int) (price : Nat),
        now > loan.due_at → ¬ price ≤ loan.liquidation_price →
          liquidate_trigger_check loan now price = Except.ok LoanStatus.LiquidatedTime) := by
  refine ⟨?_, ?_, ?_, ?_, ?_⟩
  · intro loan price
    simp [ValidationUtils.is_loan_liquidatable_by_price]
  · intro loan now price h
    push_neg at h
    simp [liquidate_trigger_check, ValidationUtils.is_loan_liquidatable_by_time,
      ValidationUtils.is_loan_liquidatable_by_price, h.1, h.2]
  · intro loan now price
    by_cases ht : now > loan.due_at <;> by_cases hp : price ≤ loan.liquidation_price <;>
      simp [liquidate_trigger_check, ValidationUtils.is_loan_liquidatable_by_time,
        ValidationUtils.is_loan_liquidatable_by_price, ht, hp, Except.isOk, Except.toBool]
  · intro loan now price hp
    simp [liquidate_trigger_check, ValidationUtils.is_loan_liquidatable_by_time,
      ValidationUtils.is_loan_liquidatable_by_price, hp]
  · intro loan now price ht hp
    simp [liquidate_trigger_check, ValidationUtils.is_loan_liquidatable_by_time,
      ValidationUtils.is_loan_liquidatable_by_price, ht, hp]

/-- C2 witness: a loan past due AND below its liquidation price is liquidated
with status LiquidatedPrice. -/
theorem liquidation_triggers_correct_witness :
    liquidate_trigger_check (Loan.mk 0 0 10 5) 6 10 = Except.ok LoanStatus.LiquidatedPrice :=
  liquidation_triggers_correct.2.2.2.1 (Loan.mk 0 0 10 5) 6 10 (by decide)

/-- C10: when an epoch boundary is crossed with current_epoch_rewards > 0 but
current_epoch_eligible_stake = 0, advance_single_epoch leaves the accumulator
unchanged; the rewards are carried into the next epoch exactly when
total_staked is still zero, and are reset to zero at the end of the same
advance when total_staked > 0 (so they are then never distributed). -/
theorem rollover_rewards_no_eligible_stake :
    ∀ (pool pool' : StakingPool),
      pool.current_epoch_eligible_stake = 0 → 0 < pool.current_epoch_rewards →
      advance_single_epoch pool = Except.ok pool' →
        pool'.reward_per_token_accumulated = pool.reward_per_token_accumulated
      ∧ (pool.total_staked = 0 → pool'.current_epoch_rewards = pool.current_epoch_rewards)
      ∧ (0 < pool.total_staked → pool'.current_epoch_rewards = 0) := by
  intro pool pool' h0 h1 hadv
  simp only [advance_single_epoch] at hadv
  rw [if_neg (by omega :
        ¬ (pool.current_epoch_eligible_stake > 0 ∧ pool.current_epoch_rewards > 0)),
      if_pos h1, except_ok_bind] at hadv
  split at hadv
  · exact absurd hadv (by simp)
  · split at hadv
    · exact absurd hadv (by simp)
    · split at hadv
      · rename_i hstake
        rw [Except.ok.injEq] at hadv
        subst hadv
        refine ⟨rfl, ?_, ?_⟩ <;> intro h
        · simp at hstake
          omega
        · rfl
      · rename_i hstake
        rw [Except.ok.injEq] at hadv
        subst hadv
        refine ⟨rfl, fun _ => rfl, ?_⟩
        intro h
        simp at hstake
        omega

/-- C10 witness: eligible stake 0, rewards 75, total_staked 40 > 0: the
accumulator stays 0 and the rolled-over rewards are zeroed by the advance. -/
theorem rollover_rewards_no_eligible_stake_witness :
    0 = (0 : Nat) ∧ (0 < (40 : Nat) → 0 = (0 : Nat)) := by
  have h := rollover_rewards_no_eligible_stake (StakingPool.mk 7 10 0 40 0 0 75 7)
    (StakingPool.mk 8 10 10 40 40 0 0 8) rfl (by decide) (by rfl)
  exact ⟨h.1, fun hs => h.2.2 hs⟩

/-- Field-level description of a successful advance_single_epoch: the
accumulator gains epoch_rewards * REWARD_PRECISION / eligible_stake when the
ending epoch had eligible stake and rewards; the epoch number is bumped by
one; the new eligible stake is total_staked; the reward counter is zeroed
when total_staked is positive and left at its previous value when
total_staked is zero (so a nonzero counter rolls over); and
epoch_start_time advances by exactly one epoch_duration. -/
theorem advance_single_epoch_spec :
    ∀ (pool pool' : StakingPool), advance_single_epoch pool = Except.ok pool' →
      (0 < pool.current_epoch_eligible_stake → 0 < pool.current_epoch_rewards →
          pool'.reward_per_token_accumulated =
            pool.reward_per_token_accumulated +
              pool.current_epoch_rewards * REWARD_PRECISION / pool.current_epoch_eligible_stake)
    ∧ pool'.current_epoch = pool.current_epoch + 1
    ∧ pool'.current_epoch_eligible_stake = pool.total_staked
    ∧ (0 < pool.total_staked → pool'.current_epoch_rewards = 0)
    ∧ (pool.total_staked = 0 →
        pool'.current_epoch_rewards = pool.current_epoch_rewards)
    ∧ pool'.epoch_start_time = pool.epoch_start_time + pool.epoch_duration
    ∧ pool'.epoch_duration = pool.epoch_duration := by
  intro pool pool' hadv
  simp only [advance_single_epoch] at hadv
  by_cases h1 : pool.current_epoch_eligible_stake > 0 ∧ pool.current_epoch_rewards > 0
  · rw [if_pos h1] at hadv
    split at hadv
    · rw [except_error_bind] at hadv
      exact absurd hadv (by simp)
    · split at hadv
      · rw [except_error_bind] at hadv
        exact absurd hadv (by simp)
      · simp only [except_ok_bind] at hadv
        split at hadv
        · exact absurd hadv (by simp)
        · split at hadv
          · exact absurd hadv (by simp)
          · split at hadv
            · rename_i hstake
              rw [Except.ok.injEq] at hadv
              subst hadv
              refine ⟨fun _ _ => rfl, rfl, rfl, fun _ => rfl, ?_, rfl, rfl⟩
              intro h
              simp at hstake
              omega
            · rename_i hstake
              rw [Except.ok.injEq] at hadv
              subst hadv
              refine ⟨fun _ _ => rfl, rfl, rfl, ?_, fun _ => rfl, rfl, rfl⟩
              intro h
              simp at hstake
              omega
  · rw [if_neg h1] at hadv
    split at hadv
    · simp only [except_ok_bind] at hadv
      split at hadv
      · exact absurd hadv (by simp)
      · split at hadv
        · exact absurd hadv (by simp)
        · split at hadv
          · rename_i hstake
            rw [Except.ok.injEq] at hadv
            subst hadv
            refine ⟨fun he hr => absurd ⟨he, hr⟩ h1, rfl, rfl, fun _ => rfl, ?_, rfl, rfl⟩
            intro h
            simp at hstake
            omega
          · rename_i hstake
            rw [Except.ok.injEq] at hadv
            subst hadv
            refine ⟨fun he hr => absurd ⟨he, hr⟩ h1, rfl, rfl, ?_, fun _ => rfl, rfl, rfl⟩
            intro h
            simp at hstake
            omega
    · rename_i hr0
      simp only [except_ok_bind] at hadv
      split at hadv
      · exact absurd hadv (by simp)
      · split at hadv
        · exact absurd hadv (by simp)
        · split at hadv
          · rename_i hstake
            rw [Except.ok.injEq] at hadv
            subst hadv
            refine ⟨fun he hr => absurd ⟨he, hr⟩ h1, rfl, rfl, fun _ => rfl, ?_, rfl, rfl⟩
            intro h
            simp
            omega
          · rename_i hstake
            rw [Except.ok.injEq] at hadv
            subst hadv
            refine ⟨fun he hr => absurd ⟨he, hr⟩ h1, rfl, rfl, ?_, ?_, rfl, rfl⟩
            · intro h
              simp at hstake
              omega
            · intro h
              simp
              omega

/-- Unfolding: maybe_advance_epoch does nothing when the epoch has not ended. -/
theorem maybe_advance_epoch_not_due (fuel : Nat) (pool : StakingPool) (t : Int)
    (h : ¬ t ≥ pool.epoch_start_time + pool.epoch_duration) :
    maybe_advance_epoch fuel pool t = Except.ok pool := by
  conv_lhs => unfold maybe_advance_epoch
  rw [if_neg h]

/-- Unfolding: when the epoch has ended, maybe_advance_epoch advances once and
recurses. -/
theorem maybe_advance_epoch_step (fuel' : Nat) (pool : StakingPool) (t : Int)
    (h : t ≥ pool.epoch_start_time + pool.epoch_duration) :
    maybe_advance_epoch (fuel' + 1) pool t =
      advance_single_epoch pool >>= (fun p => maybe_advance_epoch fuel' p t) := by
  conv_lhs => unfold maybe_advance_epoch
  rw [if_pos h]

/-- With positive epoch_duration and enough fuel, maybe_advance_epoch performs
exactly one advance_single_epoch per full epoch_duration elapsed since
epoch_start_time, i.e. (current_time - epoch_start_time) / epoch_duration of
them (0 when current_time has not reached epoch_start_time + epoch_duration). -/
theorem maybe_advance_epoch_iterates :
    ∀ (k : Nat) (pool : StakingPool) (t : Int) (fuel : Nat),
      0 < pool.epoch_duration →
      (t - pool.epoch_start_time).toNat / pool.epoch_duration.toNat = k →
      k ≤ fuel →
      maybe_advance_epoch fuel pool t = advanceIter k pool := by
  intro k
  induction k with
  | zero =>
    intro pool t fuel hd hk _
    have hdn : 0 < pool.epoch_duration.toNat := by omega
    have hlt : (t - pool.epoch_start_time).toNat < pool.epoch_duration.toNat :=
      (Nat.div_eq_zero_iff hdn).mp hk
    have hguard : ¬ t ≥ pool.epoch_start_time + pool.epoch_duration := by omega
    rw [maybe_advance_epoch_not_due fuel pool t hguard]
    rfl
  | succ n ih =>
    intro pool t fuel hd hk hf
    have hdn : 0 < pool.epoch_duration.toNat := by omega
    have hge : pool.epoch_duration.toNat ≤ (t - pool.epoch_start_time).toNat := by
      by_contra hcon
      rw [Nat.div_eq_of_lt (by omega)] at hk
      omega
    have hguard : t ≥ pool.epoch_start_time + pool.epoch_duration := by omega
    obtain ⟨fuel', rfl⟩ : ∃ f, fuel = f + 1 := ⟨fuel - 1, by omega⟩
    rw [maybe_advance_epoch_step fuel' pool t hguard, advanceIter]
    cases hA : advance_single_epoch pool with
    | error e => rfl
    | ok pool' =>
      simp only [except_ok_bind]
      obtain ⟨-, -, -, -, -, hstart, hdur⟩ := advance_single_epoch_spec pool pool' hA
      apply ih pool' t fuel' (by omega)
      · rw [hstart, hdur]
        have hsub : (t - (pool.epoch_start_time + pool.epoch_duration)).toNat =
            (t - pool.epoch_start_time).toNat - pool.epoch_duration.toNat := by omega
        rw [hsub]
        have hdiv := Nat.div_eq_sub_div hdn hge
        omega
      · omega

/-- C3 counterexample: a single epoch advance does NOT always reset the current
epoch's reward counter to zero.  For a pool with eligible_stake = 100,
epoch rewards = 50 and total_staked = 0, the advance succeeds, distributes the
rewards into the accumulator, and leaves current_epoch_rewards at 50. -/
theorem epoch_advance_reset_counterexample :
    advance_single_epoch (StakingPool.mk 0 10 0 0 100 0 50 0) =
      Except.ok (StakingPool.mk 1 10 10 0 0 500000000000 50 1) ∧
    (StakingPool.mk 1 10 10 0 0 500000000000 50 1).current_epoch_rewards ≠ 0 := by
  exact ⟨by rfl, by decide⟩

/-- C3 (amended): each successful single epoch advance adds exactly
epoch_rewards * REWARD_PRECISION / eligible_stake to the accumulator when
eligible_stake > 0 and rewards > 0; increments the epoch number by one; sets
eligible_stake to total_staked; resets the epoch reward counter to zero when
total_staked > 0 (when total_staked = 0 a nonzero counter is left in place and
rolls over); and advances epoch_start_time by exactly one epoch_duration (not
to the current time).  maybe_advance_epoch repeats this once for every full
epoch_duration that has elapsed. -/
theorem epoch_advance_amended :
    (∀ (pool pool' : StakingPool), advance_single_epoch pool = Except.ok pool' →
        (0 < pool.current_epoch_eligible_stake → 0 < pool.current_epoch_rewards →
            pool'.reward_per_token_accumulated =
              pool.reward_per_token_accumulated +
                pool.current_epoch_rewards * REWARD_PRECISION /
                  pool.current_epoch_eligible_stake)
      ∧ pool'.current_epoch = pool.current_epoch + 1
      ∧ pool'.current_epoch_eligible_stake = pool.total_staked
      ∧ (0 < pool.total_staked → pool'.current_epoch_rewards = 0)
      ∧ (pool.total_staked = 0 →
          pool'.current_epoch_rewards = pool.current_epoch_rewards)
      ∧ pool'.epoch_start_time = pool.epoch_start_time + pool.epoch_duration)
  ∧ (∀ (pool : StakingPool) (t : Int) (fuel : Nat),
        0 < pool.epoch_duration →
        (t - pool.epoch_start_time).toNat / pool.epoch_duration.toNat ≤ fuel →
        maybe_advance_epoch fuel pool t =
          advanceIter ((t - pool.epoch_start_time).toNat / pool.epoch_duration.toNat) pool) := by
  constructor
  · intro pool pool' hadv
    obtain ⟨h1, h2, h3, h4, h5, h6, -⟩ := advance_single_epoch_spec pool pool' hadv
    exact ⟨h1, h2, h3, h4, h5, h6⟩
  · intro pool t fuel hd hf
    exact maybe_advance_epoch_iterates _ pool t fuel hd rfl hf

/-- C3 witness: for a pool with eligible stake 100, rewards 50, total_staked
200, epoch_duration 10, start time 0, queried at time 25, maybe_advance_epoch
with fuel 3 performs exactly 2 single advances; and on a pool with
total_staked = 0 the reward counter (50) is kept unchanged by the advance. -/
theorem epoch_advance_amended_witness :
    maybe_advance_epoch 3 (StakingPool.mk 0 10 0 200 100 0 50 0) 25 =
      advanceIter 2 (StakingPool.mk 0 10 0 200 100 0 50 0) ∧
    (StakingPool.mk 1 10 10 200 200 500000000000 0 1).current_epoch = 0 + 1 ∧
    (StakingPool.mk 1 10 10 0 0 500000000000 50 1).current_epoch_rewards =
      (StakingPool.mk 0 10 0 0 100 0 50 0).current_epoch_rewards := by
  refine ⟨?_, ?_, ?_⟩
  · exact epoch_advance_amended.2 (StakingPool.mk 0 10 0 200 100 0 50 0) 25 3
      (by decide) (by decide)
  · exact (epoch_advance_amended.1 (StakingPool.mk 0 10 0 200 100 0 50 0)
      (StakingPool.mk 1 10 10 200 200 500000000000 0 1) (by rfl)).2.1
  · exact (epoch_advance_amended.1 (StakingPool.mk 0 10 0 0 100 0 50 0)
      (StakingPool.mk 1 10 10 0 0 500000000000 50 1) (by rfl)).2.2.2.2.1 (by rfl)

/-- SafeMath.add succeeds exactly on sums that fit in u64. -/
theorem safemath_add_ok (a b : Nat) (h : a + b ≤ U64_MAX) :
    SafeMath.add a b = Except.ok (a + b) := by
  unfold SafeMath.add
  rw [if_neg (by omega)]

/-- SafeMath.sub succeeds exactly when no underflow occurs. -/
theorem safemath_sub_ok (a b : Nat) (h : b ≤ a) :
    SafeMath.sub a b = Except.ok (a - b) := by
  unfold SafeMath.sub
  rw [if_neg (by omega)]

/-- SafeMath.mul_div succeeds when the divisor is nonzero, the product fits in
u128 and the quotient fits in u64. -/
theorem safemath_mul_div_ok (a b c : Nat) (hc : c ≠ 0) (h1 : a * b ≤ U128_MAX)
    (h2 : a * b / c ≤ U64_MAX) :
    SafeMath.mul_div a b c = Except.ok (a * b / c) := by
  unfold SafeMath.mul_div
  rw [if_neg hc, if_neg (by omega), if_neg (by omega)]

/-- C4 counterexample: the claim says a vault shortfall is not an error and the
user is paid min(pending, vault_balance).  For a user with pending_rewards =
100 over a vault holding only 40 lamports, claim_rewards_handler instead fails
with InsufficientRewardBalance. -/
theorem claim_rewards_shortfall_counterexample :
    claim_rewards_handler (EmissionPool.mk 0 0 0 0 0 0 0 0)
      (EmissionUserStake.mk 0 100 0) 40 0 =
      Except.error LendingError.InsufficientRewardBalance := by rfl

/-- C4 (amended): claim_rewards does not clamp the payout to the vault balance:
whenever the vault balance is below the user's total rewards (stored pending
plus newly accrued) the handler fails with InsufficientRewardBalance; when the
vault covers the total, the handler succeeds, pays the full total (not a
clamped amount), zeroes the user's pending rewards and sets the user's
reward_per_token_paid snapshot to the freshly computed accumulator value. -/
theorem claim_rewards_amended :
    ∀ (pool : EmissionPool) (user : EmissionUserStake) (vault : Nat) (now : Int)
      (rpt new_rewards : Nat),
      ClaimRewards.calculate_reward_per_token pool vault now = Except.ok rpt →
      ClaimRewards.calculate_pending_rewards user rpt = Except.ok new_rewards →
      user.pending_rewards + new_rewards ≤ U64_MAX →
      0 < user.pending_rewards + new_rewards →
        (vault < user.pending_rewards + new_rewards →
          claim_rewards_handler pool user vault now =
            Except.error LendingError.InsufficientRewardBalance)
      ∧ (user.pending_rewards + new_rewards ≤ vault →
         pool.total_rewards_distributed + (user.pending_rewards + new_rewards) ≤ U64_MAX →
          claim_rewards_handler pool user vault now =
            Except.ok
              ({ pool with
                  reward_per_token_stored := rpt,
                  last_update_time := now,
                  total_rewards_distributed :=
                    pool.total_rewards_distributed + (user.pending_rewards + new_rewards) },
               { user with pending_rewards := 0, reward_per_token_paid := rpt },
               user.pending_rewards + new_rewards)) := by
  intro pool user vault now rpt nr hrpt hnr hle hpos
  have hadd : SafeMath.add user.pending_rewards nr =
      Except.ok (user.pending_rewards + nr) := safemath_add_ok _ _ hle
  constructor
  · intro hv
    simp only [claim_rewards_handler, hrpt, except_ok_bind, hnr, hadd]
    rw [if_neg (by omega), if_pos hv]
  · intro hv hdist
    simp only [claim_rewards_handler, hrpt, except_ok_bind, hnr, hadd]
    rw [if_neg (by omega), if_neg (by omega)]
    simp only [safemath_add_ok _ _ hdist, except_ok_bind]

/-- C4 witness: a user with 100 pending over a vault of 100 is paid the full
100 and their snapshot advances to the current accumulator (0 here). -/
theorem claim_rewards_amended_witness :
    claim_rewards_handler (EmissionPool.mk 0 0 0 0 0 0 0 0)
      (EmissionUserStake.mk 0 100 0) 100 0 =
      Except.ok (EmissionPool.mk 0 0 0 0 0 0 0 100, EmissionUserStake.mk 0 0 0, 100) := by
  exact (claim_rewards_amended (EmissionPool.mk 0 0 0 0 0 0 0 0)
    (EmissionUserStake.mk 0 100 0) 100 0 0 0 (by rfl) (by rfl) (by decide) (by decide)).2
    (by decide) (by decide)

/-- C7: the liquidate instruction enforces two slippage checks.  Before the
swap it fails with SlippageTooHigh exactly when the caller-supplied
min_sol_output is below 95% (a 500-bps bound) of the protocol's own expected
sale value collateral_amount * current_price / PRICE_SCALE; after the swap it
fails with SlippageExceeded exactly when the realized proceeds, measured as
the vault balance difference, are below the caller-supplied min_sol_output,
and succeeds with those proceeds otherwise. -/
theorem liquidation_slippage_checks :
    (∀ (collateral_amount current_price min_sol_output : Nat),
        collateral_amount * current_price ≤ U128_MAX →
        collateral_amount * current_price / PRICE_SCALE ≤ U64_MAX →
        (liquidate_min_output_check collateral_amount current_price min_sol_output =
            Except.error LendingError.SlippageTooHigh ↔
          min_sol_output < collateral_amount * current_price / PRICE_SCALE *
            (BPS_DIVISOR - MAX_LIQUIDATION_SLIPPAGE_BPS) / BPS_DIVISOR))
  ∧ (∀ (sol_before sol_after min_sol_output : Nat),
        sol_before ≤ sol_after →
        (liquidate_proceeds_check sol_before sol_after min_sol_output =
            Except.error LendingError.SlippageExceeded ↔
          sol_after - sol_before < min_sol_output)
      ∧ (min_sol_output ≤ sol_after - sol_before →
          liquidate_proceeds_check sol_before sol_after min_sol_output =
            Except.ok (sol_after - sol_before))) := by
  constructor
  · intro collateral_amount current_price min_sol_output h1 h2
    have hexp : SafeMath.mul_div collateral_amount current_price PRICE_SCALE =
        Except.ok (collateral_amount * current_price / PRICE_SCALE) :=
      safemath_mul_div_ok _ _ _ (by decide) h1 h2
    set e := collateral_amount * current_price / PRICE_SCALE with he
    have hb1 : e * (BPS_DIVISOR - MAX_LIQUIDATION_SLIPPAGE_BPS) ≤ U128_MAX := by
      have : e * (BPS_DIVISOR - MAX_LIQUIDATION_SLIPPAGE_BPS) ≤ U64_MAX * 10000 :=
        Nat.mul_le_mul h2 (by decide)
      have hub : U64_MAX * 10000 ≤ U128_MAX := by decide
      omega
    have hb2 : e * (BPS_DIVISOR - MAX_LIQUIDATION_SLIPPAGE_BPS) / BPS_DIVISOR ≤ U64_MAX := by
      have hle : e * (BPS_DIVISOR - MAX_LIQUIDATION_SLIPPAGE_BPS) / BPS_DIVISOR ≤
          e * BPS_DIVISOR / BPS_DIVISOR :=
        Nat.div_le_div_right (Nat.mul_le_mul_left e (by decide))
      rw [Nat.mul_div_cancel e (by decide : 0 < BPS_DIVISOR)] at hle
      omega
    have hmin : SafeMath.mul_div e (BPS_DIVISOR - MAX_LIQUIDATION_SLIPPAGE_BPS) BPS_DIVISOR =
        Except.ok (e * (BPS_DIVISOR - MAX_LIQUIDATION_SLIPPAGE_BPS) / BPS_DIVISOR) :=
      safemath_mul_div_ok _ _ _ (by decide) hb1 hb2
    simp only [liquidate_min_output_check, hexp, except_ok_bind, hmin]
    by_cases hcmp : min_sol_output ≥
        e * (BPS_DIVISOR - MAX_LIQUIDATION_SLIPPAGE_BPS) / BPS_DIVISOR
    · rw [if_pos hcmp]
      simp
      omega
    · rw [if_neg hcmp]
      simp
      omega
  · intro sol_before sol_after min_sol_output hle
    constructor
    · unfold liquidate_proceeds_check
      rw [if_neg (by omega)]
      by_cases hcmp : sol_after - sol_before ≥ min_sol_output
      · rw [if_pos hcmp]
        simp
        omega
      · rw [if_neg hcmp]
        simp
        omega
    · intro hmin
      unfold liquidate_proceeds_check
      rw [if_neg (by omega), if_pos (by omega)]

/-- C7 witness: expected value 2_000_000 lamports gives a 1_900_000 floor, so a
caller minimum of 1_000_000 is rejected as SlippageTooHigh; realized proceeds
of 5 against a minimum of 7 are rejected as SlippageExceeded; proceeds of 5
against a minimum of 5 pass. -/
theorem liquidation_slippage_checks_witness :
    liquidate_min_output_check 1000000 2000000 1000000 =
      Except.error LendingError.SlippageTooHigh ∧
    liquidate_proceeds_check 0 5 7 = Except.error LendingError.SlippageExceeded ∧
    liquidate_proceeds_check 0 5 5 = Except.ok 5 := by
  refine ⟨?_, ?_, ?_⟩
  · exact (liquidation_slippage_checks.1 1000000 2000000 1000000
      (by decide) (by decide)).mpr (by decide)
  · exact ((liquidation_slippage_checks.2 0 5 7 (by decide)).1).mpr (by decide)
  · exact (liquidation_slippage_checks.2 0 5 5 (by decide)).2 (by decide)

/-- The per-staker share computed by the distribution loop:
staked_amount * rewards_pool / eligible_stake, truncated by the source's
`as u64` cast. -/
def distribute_share (r : StakeRecord) (rewards_pool eligible_stake : Nat) : Nat :=
  r.staked_amount * rewards_pool / eligible_stake % 2 ^ 64

/-- C9: distribution is idempotent per pair and tolerates vault exhaustion.
(1) A record whose last_rewarded_epoch (or stake_start_epoch) is at or past
the distributable epoch, or with no stake, is skipped unchanged and unpaid —
in particular a record already paid for the distributable epoch is a no-op on
a re-run.  (2) A paid record has its last_rewarded_epoch advanced to the
distributable epoch (so a second run skips it by (1)) and its lifetime total
bumped by its share, with the vault debited by exactly that share.  (3) When
the vault balance cannot cover the next share, processing stops early,
returning success with the remaining records untouched.  (4) The handler
then still succeeds, folding the distributed total into the pool counters. -/
theorem distribution_idempotent_and_safe :
    (∀ (de rp es vault : Nat) (r : StakeRecord) (rest : List StakeRecord),
        r.staked_amount = 0 ∨ de ≤ r.stake_start_epoch ∨ de ≤ r.last_rewarded_epoch →
        distribute_process de rp es vault (r :: rest) =
          (distribute_process de rp es vault rest).map (fun x => (r :: x.1, x.2.1, x.2.2)))
  ∧ (∀ (de rp es vault : Nat) (r : StakeRecord) (rest : List StakeRecord),
         0 < r.staked_amount → r.stake_start_epoch < de →
        r.last_rewarded_epoch < de → r.staked_amount * rp ≤ U128_MAX → es ≠ 0 →
        0 < distribute_share r rp es → distribute_share r rp es ≤ vault →
        r.total_rewards_received + distribute_share r rp es ≤ U64_MAX →
        distribute_process de rp es vault (r :: rest) =
          (distribute_process de rp es (vault - distribute_share r rp es) rest).map
            (fun x =>
              ({ r with
                  last_rewarded_epoch := de,
                  total_rewards_received :=
                    r.total_rewards_received + distribute_share r rp es } :: x.1,
               x.2.1, x.2.2 + distribute_share r rp es)))
  ∧ (∀ (de rp es vault : Nat) (r : StakeRecord) (rest : List StakeRecord),
        0 < r.staked_amount → r.stake_start_epoch < de →
        r.last_rewarded_epoch < de → r.staked_amount * rp ≤ U128_MAX → es ≠ 0 →
        0 < distribute_share r rp es → vault < distribute_share r rp es →
        distribute_process de rp es vault (r :: rest) = Except.ok (r :: rest, vault, 0))
  ∧ (∀ (pool : DistPool) (vault : Nat) (records updated : List StakeRecord)
        (v tot : Nat),
        0 < pool.last_epoch_rewards → 0 < pool.last_epoch_eligible_stake → records ≠ [] →
        1000 ≤ min pool.last_epoch_rewards vault →
        distribute_process (pool.current_epoch - 1) (min pool.last_epoch_rewards vault)
          pool.last_epoch_eligible_stake vault records = Except.ok (updated, v, tot) →
        pool.last_epoch_distributed + tot ≤ U64_MAX →
        pool.total_rewards_distributed + tot ≤ U64_MAX →
        distribute_rewards_handler pool vault records =
          Except.ok ({ pool with
              last_epoch_distributed := pool.last_epoch_distributed + tot,
              total_rewards_distributed := pool.total_rewards_distributed + tot },
            updated, v)) := by
  refine ⟨?_, ?_, ?_, ?_⟩
  · intro de rp es vault r rest h
    conv_lhs => unfold distribute_process
    rw [if_pos h]
  · intro de rp es vault r rest hs hstart hlast hmul hes hpos hcov hrecv
    unfold distribute_share at hpos hcov hrecv
    conv_lhs => unfold distribute_process
    rw [if_neg (by omega), if_neg (by omega), if_neg hes]
    simp only []
    rw [if_neg (by omega), if_neg (by omega), if_neg (by omega)]
    rfl
  · intro de rp es vault r rest hs hstart hlast hmul hes hpos hvault
    unfold distribute_share at hpos hvault
    conv_lhs => unfold distribute_process
    rw [if_neg (by omega), if_neg (by omega), if_neg hes]
    simp only []
    rw [if_neg (by omega), if_pos (by omega)]
  · intro pool vault records updated v tot h1 h2 h3 h4 hproc hd1 hd2
    unfold distribute_rewards_handler
    rw [if_neg (by omega), if_neg (by omega), if_neg h3, if_neg (by omega)]
    simp only [hproc, except_ok_bind]
    rw [if_neg (by omega), if_neg (by omega)]

/-- C9 witness: a record already rewarded for the distributable epoch (5) is
skipped and the call still succeeds with nothing distributed. -/
theorem distribution_idempotent_and_safe_witness :
    distribute_rewards_handler (DistPool.mk 6 2000 100 0 0) 5000 [StakeRecord.mk 10 0 5 0] =
      Except.ok (DistPool.mk 6 2000 100 0 0, [StakeRecord.mk 10 0 5 0], 5000) := by
  exact distribution_idempotent_and_safe.2.2.2 (DistPool.mk 6 2000 100 0 0) 5000
    [StakeRecord.mk 10 0 5 0] [StakeRecord.mk 10 0 5 0] 5000 0
    (by decide) (by decide) (by decide) (by decide) (by rfl) (by decide) (by decide)

/-- A little-endian read of all-zero bytes is zero. -/
theorem u64FromLeBytes_eq_zero (l : List Nat) (h : ∀ b ∈ l, b = 0) :
    u64FromLeBytes l = 0 := by
  induction l with
  | nil => rfl
  | cons a l ih =>
    have ha : a = 0 := h a (by simp)
    have hl : u64FromLeBytes l = 0 := ih (fun b hb => h b (by simp [hb]))
    simp [u64FromLeBytes] at hl ⊢
    simp [ha, hl]

/-- Bytes extracted from a slice are bytes of the slice. -/
theorem mem_of_mem_extractBytes (data : List Nat) (off len b : Nat)
    (hb : b ∈ extractBytes data off len) : b ∈ data := by
  unfold extractBytes at hb
  exact List.mem_of_mem_drop (List.mem_of_mem_take hb)

/-- Bytes extracted within the first n bytes of a slice are bytes of its
n-byte head. -/
theorem mem_take_of_mem_extractBytes (data : List Nat) (off len n b : Nat)
    (h : off + len ≤ n) (hb : b ∈ extractBytes data off len) : b ∈ data.take n := by
  unfold extractBytes at hb
  have h1 : ((data.drop off).take (n - off)).take len = (data.drop off).take len := by
    rw [List.take_take, min_eq_left (by omega)]
  rw [← h1] at hb
  have hb2 := List.mem_of_mem_take hb
  rw [← List.drop_take] at hb2
  exact List.mem_of_mem_drop hb2

/-- A nonzero little-endian read means the file of bytes is not all zero. -/
theorem any_ne_zero_of_u64FromLeBytes_pos (l : List Nat) (h : 0 < u64FromLeBytes l) :
    l.any (fun b => b != 0) = true := by
  rw [List.any_eq_true]
  by_contra hcon
  push_neg at hcon
  have hz : ∀ b ∈ l, b = 0 := by
    intro b hb
    have := hcon b hb
    simpa using this
  rw [u64FromLeBytes_eq_zero l hz] at h
  omega

/-- An error from the dispatched AMM reader propagates through
read_price_from_pool. -/
theorem read_price_from_pool_raydium_error (pd tm : List Nat) (e : LendingError)
    (h : PriceFeedUtils.read_raydium_price pd tm SOL_MINT = Except.error e) :
    PriceFeedUtils.read_price_from_pool pd PoolType.Raydium tm = Except.error e := by
  simp only [PriceFeedUtils.read_price_from_pool, h, except_error_bind]

/-- An error from the dispatched bonding-curve reader propagates through
read_price_from_pool. -/
theorem read_price_from_pool_pumpfun_error (pd tm : List Nat) (e : LendingError)
    (h : PriceFeedUtils.read_pumpfun_price pd = Except.error e) :
    PriceFeedUtils.read_price_from_pool pd PoolType.Pumpfun tm = Except.error e := by
  simp only [PriceFeedUtils.read_price_from_pool, h, except_error_bind]

/-- Undersized AMM pool data is rejected as InvalidPriceFeed. -/
theorem read_raydium_price_short (pd tm : List Nat) (h : pd.length < RAYDIUM_MIN_DATA_LEN) :
    PriceFeedUtils.read_raydium_price pd tm SOL_MINT =
      Except.error LendingError.InvalidPriceFeed := by
  unfold PriceFeedUtils.read_raydium_price
  rw [if_pos h]

/-- All-zero (uninitialized) AMM pool data is rejected as InvalidPriceFeed. -/
theorem read_raydium_price_all_zero (pd tm : List Nat) (h : ∀ b ∈ pd, b = 0) :
    PriceFeedUtils.read_raydium_price pd tm SOL_MINT =
      Except.error LendingError.InvalidPriceFeed := by
  by_cases hlen : pd.length < RAYDIUM_MIN_DATA_LEN
  · exact read_raydium_price_short pd tm hlen
  · have hany : pd.any (fun b => b != 0) = false := by
      rw [List.any_eq_false]
      intro b hb
      simpa using h b hb
    unfold PriceFeedUtils.read_raydium_price
    rw [if_neg hlen, if_pos (by simp [hany])]

/-- A zero AMM reserve is rejected as InvalidPriceFeed. -/
theorem read_raydium_price_zero_reserve (pd tm : List Nat)
    (hlen : RAYDIUM_MIN_DATA_LEN ≤ pd.length)
    (h : u64FromLeBytes (extractBytes pd RAYDIUM_TOKEN_A_AMOUNT_OFFSET 8) = 0 ∨
         u64FromLeBytes (extractBytes pd RAYDIUM_TOKEN_B_AMOUNT_OFFSET 8) = 0) :
    PriceFeedUtils.read_raydium_price pd tm SOL_MINT =
      Except.error LendingError.InvalidPriceFeed := by
  unfold PriceFeedUtils.read_raydium_price
  rw [if_neg (by omega)]
  by_cases hany : pd.any (fun b => b != 0) = true
  · rw [if_neg (by simp [hany]), if_pos (by omega)]
  · rw [if_pos (by simpa using hany)]

/-- A collateral-mint mismatch (with SOL on the A side and nonzero reserves)
is rejected as PoolTypeMismatch. -/
theorem read_raydium_price_mint_mismatch (pd tm : List Nat)
    (hlen : RAYDIUM_MIN_DATA_LEN ≤ pd.length)
    (ha : 0 < u64FromLeBytes (extractBytes pd RAYDIUM_TOKEN_A_AMOUNT_OFFSET 8))
    (hb : 0 < u64FromLeBytes (extractBytes pd RAYDIUM_TOKEN_B_AMOUNT_OFFSET 8))
    (hsol : extractBytes pd RAYDIUM_TOKEN_A_MINT_OFFSET 32 = SOL_MINT)
    (hmm : extractBytes pd RAYDIUM_TOKEN_B_MINT_OFFSET 32 ≠ tm) :
    PriceFeedUtils.read_raydium_price pd tm SOL_MINT =
      Except.error LendingError.PoolTypeMismatch := by
  have hany : pd.any (fun b => b != 0) = true := by
    have ha' := any_ne_zero_of_u64FromLeBytes_pos _ ha
    rw [List.any_eq_true] at ha' ⊢
    obtain ⟨b, hbm, hbne⟩ := ha'
    exact ⟨b, mem_of_mem_extractBytes pd _ _ b hbm, hbne⟩
  unfold PriceFeedUtils.read_raydium_price
  rw [if_neg (by omega), if_neg (by simp [hany]), if_neg (by omega), if_pos hsol,
    if_pos hmm]

/-- Undersized bonding-curve data is rejected as InvalidPriceFeed. -/
theorem read_pumpfun_price_short (pd : List Nat) (h : pd.length < PUMPFUN_MIN_DATA_LEN) :
    PriceFeedUtils.read_pumpfun_price pd = Except.error LendingError.InvalidPriceFeed := by
  unfold PriceFeedUtils.read_pumpfun_price
  rw [if_pos h]

/-- All-zero (uninitialized) bonding-curve data is rejected as
InvalidPriceFeed. -/
theorem read_pumpfun_price_all_zero (pd : List Nat) (h : ∀ b ∈ pd, b = 0) :
    PriceFeedUtils.read_pumpfun_price pd = Except.error LendingError.InvalidPriceFeed := by
  by_cases hlen : pd.length < PUMPFUN_MIN_DATA_LEN
  · exact read_pumpfun_price_short pd hlen
  · have hany : (pd.take PUMPFUN_MIN_DATA_LEN).any (fun b => b != 0) = false := by
      rw [List.any_eq_false]
      intro b hb
      simpa using h b (List.mem_of_mem_take hb)
    unfold PriceFeedUtils.read_pumpfun_price
    rw [if_neg hlen, if_pos (by simp [hany])]

/-- A zero virtual reserve is rejected as InvalidPriceFeed. -/
theorem read_pumpfun_price_zero_reserve (pd : List Nat)
    (hlen : PUMPFUN_MIN_DATA_LEN ≤ pd.length)
    (h : u64FromLeBytes (extractBytes pd PUMPFUN_VIRTUAL_SOL_OFFSET 8) = 0 ∨
         u64FromLeBytes (extractBytes pd PUMPFUN_VIRTUAL_TOKEN_OFFSET 8) = 0) :
    PriceFeedUtils.read_pumpfun_price pd = Except.error LendingError.InvalidPriceFeed := by
  unfold PriceFeedUtils.read_pumpfun_price
  rw [if_neg (by omega)]
  by_cases hany : (pd.take PUMPFUN_MIN_DATA_LEN).any (fun b => b != 0) = true
  · rw [if_neg (by simp [hany]), if_pos (by omega)]
  · rw [if_pos (by simpa using hany)]

/-- A zero computed bonding-curve price is rejected as ZeroPrice. -/
theorem read_pumpfun_price_zero_price (pd : List Nat)
    (hlen : PUMPFUN_MIN_DATA_LEN ≤ pd.length)
    (hs : 0 < u64FromLeBytes (extractBytes pd PUMPFUN_VIRTUAL_SOL_OFFSET 8))
    (ht : 0 < u64FromLeBytes (extractBytes pd PUMPFUN_VIRTUAL_TOKEN_OFFSET 8))
    (hfit : u64FromLeBytes (extractBytes pd PUMPFUN_VIRTUAL_SOL_OFFSET 8) * PRICE_SCALE ≤
      U128_MAX)
    (hzero : u64FromLeBytes (extractBytes pd PUMPFUN_VIRTUAL_SOL_OFFSET 8) * PRICE_SCALE /
      u64FromLeBytes (extractBytes pd PUMPFUN_VIRTUAL_TOKEN_OFFSET 8) = 0) :
    PriceFeedUtils.read_pumpfun_price pd = Except.error LendingError.ZeroPrice := by
  have hany : (pd.take PUMPFUN_MIN_DATA_LEN).any (fun b => b != 0) = true := by
    have hs' := any_ne_zero_of_u64FromLeBytes_pos _ hs
    rw [List.any_eq_true] at hs' ⊢
    obtain ⟨b, hbm, hbne⟩ := hs'
    refine ⟨b, ?_, hbne⟩
    exact mem_take_of_mem_extractBytes pd PUMPFUN_VIRTUAL_SOL_OFFSET 8
      PUMPFUN_MIN_DATA_LEN b (by decide) hbm
  unfold PriceFeedUtils.read_pumpfun_price
  rw [if_neg (by omega), if_neg (by simp [hany]), if_neg (by omega), if_neg (by omega),
    if_pos hzero, if_neg (by omega)]

/-- C8: read_price_from_pool validates its pool bytes in order, for both
layouts.  Undersized data and all-zero (uninitialized) data fail with
InvalidPriceFeed; a zero reserve (reached with sufficient length, whether or
not the rest of the data is zero) fails with InvalidPriceFeed; a
collateral-mint mismatch on the constant-product layout — the only layout
that stores mints; the bonding-curve reader takes no mint — fails with
PoolTypeMismatch (checked after the reserve checks, before any price math);
and a computed price of zero fails with ZeroPrice on both layouts. -/
theorem price_reader_validation :
    (∀ (pd tm : List Nat), pd.length < RAYDIUM_MIN_DATA_LEN →
        PriceFeedUtils.read_price_from_pool pd PoolType.Raydium tm =
          Except.error LendingError.InvalidPriceFeed)
  ∧ (∀ (pd tm : List Nat), pd.length < PUMPFUN_MIN_DATA_LEN →
        PriceFeedUtils.read_price_from_pool pd PoolType.Pumpfun tm =
          Except.error LendingError.InvalidPriceFeed)
  ∧ (∀ (pd tm : List Nat), (∀ b ∈ pd, b = 0) →
        PriceFeedUtils.read_price_from_pool pd PoolType.Raydium tm =
          Except.error LendingError.InvalidPriceFeed
      ∧ PriceFeedUtils.read_price_from_pool pd PoolType.Pumpfun tm =
          Except.error LendingError.InvalidPriceFeed)
  ∧ (∀ (pd tm : List Nat), RAYDIUM_MIN_DATA_LEN ≤ pd.length →
        (u64FromLeBytes (extractBytes pd RAYDIUM_TOKEN_A_AMOUNT_OFFSET 8) = 0 ∨
         u64FromLeBytes (extractBytes pd RAYDIUM_TOKEN_B_AMOUNT_OFFSET 8) = 0) →
        PriceFeedUtils.read_price_from_pool pd PoolType.Raydium tm =
          Except.error LendingError.InvalidPriceFeed)
  ∧ (∀ (pd tm : List Nat), PUMPFUN_MIN_DATA_LEN ≤ pd.length →
        (u64FromLeBytes (extractBytes pd PUMPFUN_VIRTUAL_SOL_OFFSET 8) = 0 ∨
         u64FromLeBytes (extractBytes pd PUMPFUN_VIRTUAL_TOKEN_OFFSET 8) = 0) →
        PriceFeedUtils.read_price_from_pool pd PoolType.Pumpfun tm =
          Except.error LendingError.InvalidPriceFeed)
  ∧ (∀ (pd tm : List Nat), RAYDIUM_MIN_DATA_LEN ≤ pd.length →
        0 < u64FromLeBytes (extractBytes pd RAYDIUM_TOKEN_A_AMOUNT_OFFSET 8) →
        0 < u64FromLeBytes (extractBytes pd RAYDIUM_TOKEN_B_AMOUNT_OFFSET 8) →
        extractBytes pd RAYDIUM_TOKEN_A_MINT_OFFSET 32 = SOL_MINT →
        extractBytes pd RAYDIUM_TOKEN_B_MINT_OFFSET 32 ≠ tm →
        PriceFeedUtils.read_price_from_pool pd PoolType.Raydium tm =
          Except.error LendingError.PoolTypeMismatch)
  ∧ (∀ (pd tm : List Nat),
        PriceFeedUtils.read_raydium_price pd tm SOL_MINT = Except.ok 0 →
        PriceFeedUtils.read_price_from_pool pd PoolType.Raydium tm =
          Except.error LendingError.ZeroPrice)
  ∧ (∀ (pd tm : List Nat), PUMPFUN_MIN_DATA_LEN ≤ pd.length →
        0 < u64FromLeBytes (extractBytes pd PUMPFUN_VIRTUAL_SOL_OFFSET 8) →
        0 < u64FromLeBytes (extractBytes pd PUMPFUN_VIRTUAL_TOKEN_OFFSET 8) →
        u64FromLeBytes (extractBytes pd PUMPFUN_VIRTUAL_SOL_OFFSET 8) * PRICE_SCALE ≤
          U128_MAX →
        u64FromLeBytes (extractBytes pd PUMPFUN_VIRTUAL_SOL_OFFSET 8) * PRICE_SCALE /
          u64FromLeBytes (extractBytes pd PUMPFUN_VIRTUAL_TOKEN_OFFSET 8) = 0 →
        PriceFeedUtils.read_price_from_pool pd PoolType.Pumpfun tm =
          Except.error LendingError.ZeroPrice) := by
  refine ⟨?_, ?_, ?_, ?_, ?_, ?_, ?_, ?_⟩
  · intro pd tm h
    exact read_price_from_pool_raydium_error pd tm _ (read_raydium_price_short pd tm h)
  · intro pd tm h
    exact read_price_from_pool_pumpfun_error pd tm _ (read_pumpfun_price_short pd h)
  · intro pd tm h
    exact ⟨read_price_from_pool_raydium_error pd tm _ (read_raydium_price_all_zero pd tm h),
      read_price_from_pool_pumpfun_error pd tm _ (read_pumpfun_price_all_zero pd h)⟩
  · intro pd tm hlen h
    exact read_price_from_pool_raydium_error pd tm _
      (read_raydium_price_zero_reserve pd tm hlen h)
  · intro pd tm hlen h
    exact read_price_from_pool_pumpfun_error pd tm _
      (read_pumpfun_price_zero_reserve pd hlen h)
  · intro pd tm hlen ha hb hsol hmm
    exact read_price_from_pool_raydium_error pd tm _
      (read_raydium_price_mint_mismatch pd tm hlen ha hb hsol hmm)
  · intro pd tm h
    simp only [PriceFeedUtils.read_price_from_pool, h, except_ok_bind]
    rfl
  · intro pd tm hlen hs ht hfit hzero
    exact read_price_from_pool_pumpfun_error pd tm _
      (read_pumpfun_price_zero_price pd hlen hs ht hfit hzero)

/-- C8 witness: empty pool bytes are rejected as InvalidPriceFeed on the
bonding-curve layout. -/
theorem price_reader_validation_witness :
    PriceFeedUtils.read_price_from_pool [] PoolType.Pumpfun [] =
      Except.error LendingError.InvalidPriceFeed :=
  price_reader_validation.2.1 [] [] (by decide)

/-- The final [1000, 9000] clamp of calculate_duration_adjusted_ltv. -/
def ltvClamp (raw : Nat) : Nat :=
  if raw > 9000 then 9000 else if raw < 1000 then 1000 else raw

/-- ltvClamp is monotone. -/
theorem ltvClamp_le_ltvClamp {x y : Nat} (h : x ≤ y) : ltvClamp x ≤ ltvClamp y := by
  unfold ltvClamp
  split_ifs <;> omega

/-- ltvClamp lands in [1000, 9000]. -/
theorem ltvClamp_bounds (x : Nat) : 1000 ≤ ltvClamp x ∧ ltvClamp x ≤ 9000 := by
  unfold ltvClamp
  split_ifs <;> omega

/-- The pre-clamp effective LTV computed by calculate_duration_adjusted_ltv
for an already-clamped duration dc. -/
def durationRaw (base_ltv_bps dc : Nat) : Nat :=
  if dc ≤ BASE_DURATION_SECONDS then
    base_ltv_bps + base_ltv_bps *
      (MAX_LTV_BONUS_BPS * (BASE_DURATION_SECONDS - dc) /
        (BASE_DURATION_SECONDS - MIN_LOAN_DURATION)) / BPS_DIVISOR
  else
    base_ltv_bps - base_ltv_bps *
      (MAX_LTV_PENALTY_BPS * (dc - BASE_DURATION_SECONDS) /
        (MAX_LOAN_DURATION - BASE_DURATION_SECONDS)) / BPS_DIVISOR

/-- The value calculate_duration_adjusted_ltv computes, as a total function
(the embedded function never fails; see
calculate_duration_adjusted_ltv_eq). -/
def durationLtv (base_ltv_bps duration_seconds : Nat) : Nat :=
  ltvClamp
    (durationRaw base_ltv_bps (min (max duration_seconds MIN_LOAN_DURATION) MAX_LOAN_DURATION))

/-- For every u16 base LTV and every duration (no range restriction),
calculate_duration_adjusted_ltv succeeds and returns durationLtv. -/
theorem calculate_duration_adjusted_ltv_eq (base d : Nat) (hbase : base < 65536) :
    LoanCalculator.calculate_duration_adjusted_ltv base d =
      Except.ok (durationLtv base d) := by
  simp only [LoanCalculator.calculate_duration_adjusted_ltv, durationLtv]
  generalize hdc : min (max d MIN_LOAN_DURATION) MAX_LOAN_DURATION = dc
  have hmin2 : MIN_LOAN_DURATION ≤ dc := by
    rw [← hdc]
    exact le_min (le_max_right _ _) (by decide)
  have hmax2 : dc ≤ MAX_LOAN_DURATION := by
    rw [← hdc]
    exact min_le_right _ _
  have hdcmin : 43200 ≤ dc := by
    simp only [MIN_LOAN_DURATION] at hmin2
    omega
  have hdcmax : dc ≤ 604800 := by
    simp only [MAX_LOAN_DURATION] at hmax2
    omega
  by_cases hb : dc ≤ BASE_DURATION_SECONDS
  · rw [if_pos hb]
    have hq : MAX_LTV_BONUS_BPS * (BASE_DURATION_SECONDS - dc) /
        (BASE_DURATION_SECONDS - MIN_LOAN_DURATION) ≤ 2500 := by
      have h1 : MAX_LTV_BONUS_BPS * (BASE_DURATION_SECONDS - dc) ≤
          MAX_LTV_BONUS_BPS * (BASE_DURATION_SECONDS - MIN_LOAN_DURATION) :=
        Nat.mul_le_mul (le_refl _) (by omega)
      have h2 : MAX_LTV_BONUS_BPS * (BASE_DURATION_SECONDS - dc) /
          (BASE_DURATION_SECONDS - MIN_LOAN_DURATION) ≤
          MAX_LTV_BONUS_BPS * (BASE_DURATION_SECONDS - MIN_LOAN_DURATION) /
          (BASE_DURATION_SECONDS - MIN_LOAN_DURATION) := Nat.div_le_div_right h1
      have h3 : MAX_LTV_BONUS_BPS * (BASE_DURATION_SECONDS - MIN_LOAN_DURATION) /
          (BASE_DURATION_SECONDS - MIN_LOAN_DURATION) = 2500 := by decide
      omega
    have hprod : MAX_LTV_BONUS_BPS * (BASE_DURATION_SECONDS - dc) ≤ 324000000 := by
      simp only [MAX_LTV_BONUS_BPS, BASE_DURATION_SECONDS]
      omega
    have e1 : SafeMath.mul_div MAX_LTV_BONUS_BPS (BASE_DURATION_SECONDS - dc)
        (BASE_DURATION_SECONDS - MIN_LOAN_DURATION) =
        Except.ok (MAX_LTV_BONUS_BPS * (BASE_DURATION_SECONDS - dc) /
          (BASE_DURATION_SECONDS - MIN_LOAN_DURATION)) := by
      apply safemath_mul_div_ok _ _ _ (by decide)
      · have h2 : (324000000 : Nat) ≤ U128_MAX := by decide
        omega
      · have h1 := Nat.div_le_self (MAX_LTV_BONUS_BPS * (BASE_DURATION_SECONDS - dc))
          (BASE_DURATION_SECONDS - MIN_LOAN_DURATION)
        have h3 : (324000000 : Nat) ≤ U64_MAX := by decide
        omega
    have hbq : base * (MAX_LTV_BONUS_BPS * (BASE_DURATION_SECONDS - dc) /
        (BASE_DURATION_SECONDS - MIN_LOAN_DURATION)) ≤ 65535 * 2500 :=
      Nat.mul_le_mul (by omega) hq
    have e2 : SafeMath.mul_div base
        (MAX_LTV_BONUS_BPS * (BASE_DURATION_SECONDS - dc) /
          (BASE_DURATION_SECONDS - MIN_LOAN_DURATION)) BPS_DIVISOR =
        Except.ok (base * (MAX_LTV_BONUS_BPS * (BASE_DURATION_SECONDS - dc) /
          (BASE_DURATION_SECONDS - MIN_LOAN_DURATION)) / BPS_DIVISOR) := by
      apply safemath_mul_div_ok _ _ _ (by decide)
      · have h2 : (65535 * 2500 : Nat) ≤ U128_MAX := by decide
        omega
      · have h1 := Nat.div_le_self (base * (MAX_LTV_BONUS_BPS *
          (BASE_DURATION_SECONDS - dc) / (BASE_DURATION_SECONDS - MIN_LOAN_DURATION)))
          BPS_DIVISOR
        have h2 : (65535 * 2500 : Nat) ≤ U64_MAX := by decide
        omega
    have e3 : SafeMath.add base (base * (MAX_LTV_BONUS_BPS *
        (BASE_DURATION_SECONDS - dc) / (BASE_DURATION_SECONDS - MIN_LOAN_DURATION)) /
        BPS_DIVISOR) =
        Except.ok (base + base * (MAX_LTV_BONUS_BPS * (BASE_DURATION_SECONDS - dc) /
          (BASE_DURATION_SECONDS - MIN_LOAN_DURATION)) / BPS_DIVISOR) := by
      apply safemath_add_ok
      have h1 := Nat.div_le_self (base * (MAX_LTV_BONUS_BPS *
        (BASE_DURATION_SECONDS - dc) / (BASE_DURATION_SECONDS - MIN_LOAN_DURATION)))
        BPS_DIVISOR
      have h2 : (65535 + 65535 * 2500 : Nat) ≤ U64_MAX := by decide
      omega
    rw [e1]
    rw [except_ok_bind]
    rw [e2]
    rw [except_ok_bind]
    rw [e3]
    rw [except_ok_bind]
    simp only [durationRaw, ltvClamp]
    rw [if_pos hb]
    split_ifs <;> rfl
  · rw [if_neg hb]
    have hq : MAX_LTV_PENALTY_BPS * (dc - BASE_DURATION_SECONDS) /
        (MAX_LOAN_DURATION - BASE_DURATION_SECONDS) ≤ 2500 := by
      have h1 : MAX_LTV_PENALTY_BPS * (dc - BASE_DURATION_SECONDS) ≤
          MAX_LTV_PENALTY_BPS * (MAX_LOAN_DURATION - BASE_DURATION_SECONDS) :=
        Nat.mul_le_mul (le_refl _) (by omega)
      have h2 : MAX_LTV_PENALTY_BPS * (dc - BASE_DURATION_SECONDS) /
          (MAX_LOAN_DURATION - BASE_DURATION_SECONDS) ≤
          MAX_LTV_PENALTY_BPS * (MAX_LOAN_DURATION - BASE_DURATION_SECONDS) /
          (MAX_LOAN_DURATION - BASE_DURATION_SECONDS) := Nat.div_le_div_right h1
      have h3 : MAX_LTV_PENALTY_BPS * (MAX_LOAN_DURATION - BASE_DURATION_SECONDS) /
          (MAX_LOAN_DURATION - BASE_DURATION_SECONDS) = 2500 := by decide
      omega
    have hprod : MAX_LTV_PENALTY_BPS * (dc - BASE_DURATION_SECONDS) ≤ 1080000000 := by
      simp only [MAX_LTV_PENALTY_BPS, BASE_DURATION_SECONDS]
      omega
    have e1 : SafeMath.mul_div MAX_LTV_PENALTY_BPS (dc - BASE_DURATION_SECONDS)
        (MAX_LOAN_DURATION - BASE_DURATION_SECONDS) =
        Except.ok (MAX_LTV_PENALTY_BPS * (dc - BASE_DURATION_SECONDS) /
          (MAX_LOAN_DURATION - BASE_DURATION_SECONDS)) := by
      apply safemath_mul_div_ok _ _ _ (by decide)
      · have h2 : (1080000000 : Nat) ≤ U128_MAX := by decide
        omega
      · have h1 := Nat.div_le_self (MAX_LTV_PENALTY_BPS * (dc - BASE_DURATION_SECONDS))
          (MAX_LOAN_DURATION - BASE_DURATION_SECONDS)
        have h3 : (1080000000 : Nat) ≤ U64_MAX := by decide
        omega
    have hbq : base * (MAX_LTV_PENALTY_BPS * (dc - BASE_DURATION_SECONDS) /
        (MAX_LOAN_DURATION - BASE_DURATION_SECONDS)) ≤ 65535 * 2500 :=
      Nat.mul_le_mul (by omega) hq
    have e2 : SafeMath.mul_div base
        (MAX_LTV_PENALTY_BPS * (dc - BASE_DURATION_SECONDS) /
          (MAX_LOAN_DURATION - BASE_DURATION_SECONDS)) BPS_DIVISOR =
        Except.ok (base * (MAX_LTV_PENALTY_BPS * (dc - BASE_DURATION_SECONDS) /
          (MAX_LOAN_DURATION - BASE_DURATION_SECONDS)) / BPS_DIVISOR) := by
      apply safemath_mul_div_ok _ _ _ (by decide)
      · have h2 : (65535 * 2500 : Nat) ≤ U128_MAX := by decide
        omega
      · have h1 := Nat.div_le_self (base * (MAX_LTV_PENALTY_BPS *
          (dc - BASE_DURATION_SECONDS) / (MAX_LOAN_DURATION - BASE_DURATION_SECONDS)))
          BPS_DIVISOR
        have h2 : (65535 * 2500 : Nat) ≤ U64_MAX := by decide
        omega
    have e3 : SafeMath.sub base (base * (MAX_LTV_PENALTY_BPS *
        (dc - BASE_DURATION_SECONDS) / (MAX_LOAN_DURATION - BASE_DURATION_SECONDS)) /
        BPS_DIVISOR) =
        Except.ok (base - base * (MAX_LTV_PENALTY_BPS * (dc - BASE_DURATION_SECONDS) /
          (MAX_LOAN_DURATION - BASE_DURATION_SECONDS)) / BPS_DIVISOR) := by
      apply safemath_sub_ok
      have h1 : base * (MAX_LTV_PENALTY_BPS * (dc - BASE_DURATION_SECONDS) /
          (MAX_LOAN_DURATION - BASE_DURATION_SECONDS)) ≤ base * BPS_DIVISOR :=
        Nat.mul_le_mul (le_refl _) (by
          have hv : (2500 : Nat) ≤ BPS_DIVISOR := by decide
          omega)
      have h2 : base * BPS_DIVISOR / BPS_DIVISOR = base :=
        Nat.mul_div_cancel base (by decide)
      have h3 : base * (MAX_LTV_PENALTY_BPS * (dc - BASE_DURATION_SECONDS) /
          (MAX_LOAN_DURATION - BASE_DURATION_SECONDS)) / BPS_DIVISOR ≤
          base * BPS_DIVISOR / BPS_DIVISOR := Nat.div_le_div_right h1
      omega
    rw [e1]
    rw [except_ok_bind]
    rw [e2]
    rw [except_ok_bind]
    rw [e3]
    rw [except_ok_bind]
    simp only [durationRaw, ltvClamp]
    rw [if_neg hb]
    split_ifs <;> rfl

/-- durationRaw is non-increasing in the (clamped) duration. -/
theorem durationRaw_antitone (base : Nat) {c1 c2 : Nat} (h : c1 ≤ c2) :
    durationRaw base c2 ≤ durationRaw base c1 := by
  unfold durationRaw
  by_cases hb2 : c2 ≤ BASE_DURATION_SECONDS
  · rw [if_pos hb2, if_pos (by omega)]
    have hmono : MAX_LTV_BONUS_BPS * (BASE_DURATION_SECONDS - c2) /
        (BASE_DURATION_SECONDS - MIN_LOAN_DURATION) ≤
        MAX_LTV_BONUS_BPS * (BASE_DURATION_SECONDS - c1) /
        (BASE_DURATION_SECONDS - MIN_LOAN_DURATION) :=
      Nat.div_le_div_right (Nat.mul_le_mul (le_refl _) (by omega))
    have hmono2 : base * (MAX_LTV_BONUS_BPS * (BASE_DURATION_SECONDS - c2) /
        (BASE_DURATION_SECONDS - MIN_LOAN_DURATION)) / BPS_DIVISOR ≤
        base * (MAX_LTV_BONUS_BPS * (BASE_DURATION_SECONDS - c1) /
        (BASE_DURATION_SECONDS - MIN_LOAN_DURATION)) / BPS_DIVISOR :=
      Nat.div_le_div_right (Nat.mul_le_mul (le_refl _) hmono)
    omega
  · rw [if_neg hb2]
    by_cases hb1 : c1 ≤ BASE_DURATION_SECONDS
    · rw [if_pos hb1]
      exact le_trans (Nat.sub_le _ _) (Nat.le_add_right _ _)
    · rw [if_neg hb1]
      have hmono : MAX_LTV_PENALTY_BPS * (c1 - BASE_DURATION_SECONDS) /
          (MAX_LOAN_DURATION - BASE_DURATION_SECONDS) ≤
          MAX_LTV_PENALTY_BPS * (c2 - BASE_DURATION_SECONDS) /
          (MAX_LOAN_DURATION - BASE_DURATION_SECONDS) :=
        Nat.div_le_div_right (Nat.mul_le_mul (le_refl _) (by omega))
      have hmono2 : base * (MAX_LTV_PENALTY_BPS * (c1 - BASE_DURATION_SECONDS) /
          (MAX_LOAN_DURATION - BASE_DURATION_SECONDS)) / BPS_DIVISOR ≤
          base * (MAX_LTV_PENALTY_BPS * (c2 - BASE_DURATION_SECONDS) /
          (MAX_LOAN_DURATION - BASE_DURATION_SECONDS)) / BPS_DIVISOR :=
        Nat.div_le_div_right (Nat.mul_le_mul (le_refl _) hmono)
      omega

/-- C6: for every u16 base LTV and all durations (including out-of-range ones,
which are clamped rather than rejected), calculate_duration_adjusted_ltv
succeeds with the value durationLtv; that value is non-increasing as the
duration increases; and it always lies within [1000, 9000] basis points. -/
theorem duration_adjusted_ltv_monotone_bounded :
    ∀ (base_ltv_bps : Nat), base_ltv_bps < 65536 →
      (∀ (d : Nat), LoanCalculator.calculate_duration_adjusted_ltv base_ltv_bps d =
          Except.ok (durationLtv base_ltv_bps d))
    ∧ (∀ (d1 d2 : Nat), d1 ≤ d2 →
        durationLtv base_ltv_bps d2 ≤ durationLtv base_ltv_bps d1)
    ∧ (∀ (d : Nat), 1000 ≤ durationLtv base_ltv_bps d ∧
        durationLtv base_ltv_bps d ≤ 9000) := by
  intro base hbase
  refine ⟨fun d => calculate_duration_adjusted_ltv_eq base d hbase, ?_, ?_⟩
  · intro d1 d2 h
    unfold durationLtv
    apply ltvClamp_le_ltvClamp
    apply durationRaw_antitone
    omega
  · intro d
    unfold durationLtv
    exact ltvClamp_bounds _

/-- C6 witness: base LTV 5000 gives 6250 bps at the 12h minimum duration and
3750 bps at the 7d maximum, a non-increasing pair inside [1000, 9000]. -/
theorem duration_adjusted_ltv_monotone_bounded_witness :
    LoanCalculator.calculate_duration_adjusted_ltv 5000 43200 =
      Except.ok (durationLtv 5000 43200) ∧
    durationLtv 5000 604800 ≤ durationLtv 5000 43200 ∧
    1000 ≤ durationLtv 5000 604800 ∧ durationLtv 5000 604800 ≤ 9000 := by
  refine ⟨(duration_adjusted_ltv_monotone_bounded 5000 (by decide)).1 43200,
    (duration_adjusted_ltv_monotone_bounded 5000 (by decide)).2.1 43200 604800 (by decide),
    ((duration_adjusted_ltv_monotone_bounded 5000 (by decide)).2.2 604800).1,
    ((duration_adjusted_ltv_monotone_bounded 5000 (by decide)).2.2 604800).2⟩
